import Mathlib

/-!
Verification development for the SuppTracker risk-explanation module
(src/risk_explainer.py): a shallow embedding of its formatters, the
explanation client and the FastAPI endpoint, together with theorems about
the behaviours documented in spec.md.

Modelling conventions:
- a Python dict with string keys is an association list, with each value
  modelled by the text it renders to inside an f-string (str of the value);
- exceptions are modelled with Except String, carrying the text that
  str(exception) produces (for KeyError, the quoted key);
- the single external call made by explain_risk is modelled by an oracle
  argument giving the reply of the external model to the prompt; a trace
  variant counts how many times the oracle is consulted.
-/

namespace SuppTracker

/-- A Python dict with string keys; each value is modelled by the text it
renders to in an f-string. Iteration order is the list order, matching the
insertion order that Python dicts preserve. -/
abbrev PyDict := List (String × String)

/-- Lookup of key k in a dict: the first binding, or none when absent. -/
def dictLookup (d : PyDict) (k : String) : Option String :=
  (d.find? (fun kv => kv.1 == k)).map (fun kv => kv.2)

/-- Text produced by str(KeyError(k)) in Python: the key in single quotes. -/
def keyErrorMsg (k : String) : String := "\x27" ++ k ++ "\x27"

/-- Python subscript d[k]: the value when the key is present, otherwise a
raised KeyError whose message is the quoted key. -/
def dictGetItem (d : PyDict) (k : String) : Except String String :=
  match dictLookup d k with
  | some v => Except.ok v
  | none => Except.error (keyErrorMsg k)

/-- Python d.get(k, default): the value when present, else the default. -/
def dictGet (d : PyDict) (k : String) (dflt : String) : String :=
  (dictLookup d k).getD dflt

/-- Python sep.join(l): the elements of l separated by sep. -/
def pyJoin (sep : String) : List String → String
  | [] => ""
  | [x] => x
  | x :: y :: l => x ++ sep ++ pyJoin sep (y :: l)

/-- The f-string evaluated for one entry s of the stack inside format_stack:
raises KeyError when s lacks the required name key, and substitutes the
literal placeholders for a missing dosage or timing. -/
def stackLine (s : PyDict) : Except String String :=
  match dictGetItem s "name" with
  | Except.error e => Except.error e
  | Except.ok n =>
    Except.ok ("- " ++ n ++ ": " ++ dictGet s "dosage" "N/A" ++
      " (" ++ dictGet s "timing" "unspecified" ++ ")")

/-- The list comprehension inside format_stack, evaluated left to right;
the first entry lacking a name aborts it with that KeyError. -/
def stackLines : List PyDict → Except String (List String)
  | [] => Except.ok []
  | s :: rest =>
    match stackLine s with
    | Except.error e => Except.error e
    | Except.ok line =>
      match stackLines rest with
      | Except.error e => Except.error e
      | Except.ok others => Except.ok (line :: others)

/-- Embedding of format_stack from src/risk_explainer.py: the per-entry
lines of the comprehension joined by newlines. -/
def format_stack (stack : List PyDict) : Except String String :=
  Except.map (pyJoin "\n") (stackLines stack)

/-- Embedding of format_scores from src/risk_explainer.py: one key: value
line per mapping entry, in iteration order, joined by newlines. -/
def format_scores (scores : PyDict) : String :=
  pyJoin "\n" (scores.map (fun kv => kv.1 ++ ": " ++ kv.2))

/-- The four values admitted by the Literal annotation of risk_level. -/
inductive RiskLevel where
  | low
  | moderate
  | high
  | critical
deriving DecidableEq

/-- Embedding of the pydantic model RiskExplanation: the structured output
schema the external call is constrained to. -/
structure RiskExplanation where
  risk_level : RiskLevel
  user_friendly_summary : String
  warnings : List String
  next_steps : List String
  affected_compounds : List String
  confidence_score : Float

/-- Outcome of the single client.chat.completions.parse call as seen by
explain_risk: either a reply already parsed into the RiskExplanation schema
(the Structured Outputs guarantee) or a raised exception with its message. -/
inductive ApiResponse where
  | success (parsed : RiskExplanation)
  | failure (message : String)

/-- The fixed system-role instruction sent with every request. -/
def systemMessage : String :=
  "You are a supplement safety expert. Analyze the user\x27s stack and " ++
  "provide clear risk explanations based on the provided scores. " ++
  "Be direct and actionable."

/-- The user-role context prompt built inside explain_risk, embedding the
two formatted blocks. -/
def buildContext (stackBlock scoresBlock : String) : String :=
  "\nUser\x27s Current Stack:\n" ++ stackBlock ++
  "\n\nRisk Assessment Scores:\n" ++ scoresBlock ++
  "\n\nProvide a clear, actionable risk explanation for this supplement combination.\n"

/-- Embedding of explain_risk from src/risk_explainer.py, instrumented with
the number of external API calls the invocation performs. The oracle api
gives the reply of the external model to the user prompt. Formatting runs
first, while building the context; a KeyError there propagates before any
call is made. Otherwise exactly one call happens and its parsed reply or
raised message is returned. -/
def explain_risk_traced (stack : List PyDict) (risk_scores : PyDict)
    (api : String → ApiResponse) : Except String RiskExplanation × Nat :=
  match format_stack stack with
  | Except.error e => (Except.error e, 0)
  | Except.ok stackBlock =>
    match api (buildContext stackBlock (format_scores risk_scores)) with
    | ApiResponse.success parsed => (Except.ok parsed, 1)
    | ApiResponse.failure m => (Except.error m, 1)

/-- Embedding of explain_risk: the result of the traced run. -/
def explain_risk (stack : List PyDict) (risk_scores : PyDict)
    (api : String → ApiResponse) : Except String RiskExplanation :=
  (explain_risk_traced stack risk_scores api).1

/-- HTTP outcomes the endpoint can produce: 200 with a RiskExplanation
body, or 500 with a detail string (the body FastAPI renders for an
HTTPException). -/
inductive HttpResponse where
  | ok200 (body : RiskExplanation)
  | err500 (detail : String)

/-- Embedding of the endpoint handler api_explain_risk: any exception from
explain_risk is caught and resurfaced as a 500 whose detail prepends the
fixed text to the message; success returns the explanation as the 200
body. -/
def api_explain_risk (stack : List PyDict) (risk_scores : PyDict)
    (api : String → ApiResponse) : HttpResponse :=
  match explain_risk stack risk_scores api with
  | Except.ok explanation => HttpResponse.ok200 explanation
  | Except.error e => HttpResponse.err500 ("OpenAI API error: " ++ e)

/-- A process environment, mapping variable names to values. -/
abbrev Env := List (String × String)

/-- Python os.getenv: the value of the variable, or none when unset. -/
def os_getenv (env : Env) (k : String) : Option String := dictLookup env k

/-- The constructed external client, holding the credential it was given. -/
structure OpenAIClient where
  key : String

/-- Modelled from the spec: the external SDK constructor OpenAI(api_key=...)
is not part of this repository; per the spec, absence of the credential
causes client construction to fail, surfacing as a startup error. -/
def OpenAI_init (credential : Option String) : Except String OpenAIClient :=
  match credential with
  | some k => Except.ok ⟨k⟩
  | none => Except.error "The api_key client option must be set"

/-- The module-level statement client = OpenAI(api_key=os.getenv(...)),
executed once at import time (process start). -/
def client (env : Env) : Except String OpenAIClient :=
  OpenAI_init (os_getenv env "OPENAI_API_KEY")

/-- Spec-side record for one stack entry: a required name and optional
dosage and timing, as the data model of the spec describes. -/
structure StackEntry where
  name : String
  dosage : Option String
  timing : Option String
deriving DecidableEq

/-- Spec-side rendering of one stack line: hyphen, name, dosage or the
literal N/A, timing or the literal unspecified in parentheses. -/
def specStackLine (e : StackEntry) : String :=
  "- " ++ e.name ++ ": " ++ e.dosage.getD "N/A" ++
  " (" ++ e.timing.getD "unspecified" ++ ")"

/-- Reading of a stack-entry dict into the spec record; none when the
required name key is absent. -/
def entryOfDict (d : PyDict) : Option StackEntry :=
  (dictLookup d "name").map
    (fun n => ⟨n, dictLookup d "dosage", dictLookup d "timing"⟩)

/-- One incoming request to the endpoint, bundling its body together with
the reply the external model would give to a prompt during its handling. -/
structure Request where
  stack : List PyDict
  risk_scores : PyDict
  api : String → ApiResponse

/-- Handling of one request by the endpoint. -/
def handleRequest (r : Request) : HttpResponse :=
  api_explain_risk r.stack r.risk_scores r.api

/-- The server processing a sequence of requests: the handler holds no
state, so the sequence is handled request by request. -/
def handleRequests (reqs : List Request) : List HttpResponse :=
  reqs.map handleRequest

/-- Sample parsed reply used by concrete instantiations. -/
def sampleExplanation : RiskExplanation :=
  ⟨RiskLevel.low, "No major risks detected.", [], [], [], 0.9⟩

/-- Sample oracle that always succeeds with the sample reply. -/
def sampleApi : String → ApiResponse :=
  fun _ => ApiResponse.success sampleExplanation

/-- Sample request with a fully populated stack entry. -/
def sampleReq : Request :=
  ⟨[[("name", "Vitamin D3"), ("dosage", "5000 IU"), ("timing", "morning")]],
   [("interaction_severity", "0.2")], sampleApi⟩

/-- Sample request whose oracle fails. -/
def sampleReqB : Request :=
  ⟨[], [], fun _ => ApiResponse.failure "rate limit"⟩

/-- Sample request with a minimal stack entry. -/
def sampleReqC : Request :=
  ⟨[[("name", "Zinc Picolinate")]], [], sampleApi⟩

/-- Characters of a join are the intercalation of the characters of the
parts with the characters of the separator. -/
theorem pyJoin_data (sep : String) :
    ∀ l : List String,
      (pyJoin sep l).data = List.intercalate sep.data (l.map String.data)
  | [] => by simp [pyJoin, List.intercalate]
  | [x] => by simp [pyJoin, List.intercalate]
  | x :: y :: l => by
    have ih := pyJoin_data sep (y :: l)
    simp only [pyJoin, String.data_append, ih, List.map_cons]
    simp [List.intercalate]

/-- Splitting a newline join of newline-free parts recovers the parts. -/
theorem pyJoin_lines (l : List String) (hne : l ≠ [])
    (hnl : ∀ s ∈ l, Char.ofNat 10 ∉ s.data) :
    (pyJoin "\n" l).data.splitOn (Char.ofNat 10) = l.map String.data := by
  have hd : (pyJoin "\n" l).data =
      List.intercalate [Char.ofNat 10] (l.map String.data) := by
    rw [pyJoin_data]
  rw [hd]
  refine List.splitOn_intercalate (l.map String.data) (Char.ofNat 10) ?_ ?_
  · intro m hm
    rcases List.mem_map.mp hm with ⟨s, hs, rfl⟩
    exact hnl s hs
  · simpa using hne

/-- Stack lines agree with the spec rendering of the corresponding
entries whenever every dict reads as an entry. -/
theorem stackLines_of_entries :
    ∀ (stack : List PyDict) (entries : List StackEntry),
      stack.map entryOfDict = entries.map some →
      stackLines stack = Except.ok (entries.map specStackLine)
  | [], [], _ => rfl
  | [], e :: es, h => by simp at h
  | d :: ds, [], h => by simp at h
  | d :: ds, e :: es, h => by
    simp only [List.map_cons, List.cons.injEq] at h
    obtain ⟨h1, h2⟩ := h
    have ih := stackLines_of_entries ds es h2
    cases hn : dictLookup d "name" with
    | none => simp [entryOfDict, hn] at h1
    | some n =>
      simp only [entryOfDict, hn, Option.map_some', Option.some.injEq] at h1
      subst h1
      simp [stackLines, stackLine, dictGetItem, hn, ih, specStackLine, dictGet]

/-- The comprehension aborts with the KeyError for name as soon as some
entry lacks it. -/
theorem stackLines_missing_name :
    ∀ stack : List PyDict,
      (∃ d ∈ stack, dictLookup d "name" = none) →
      stackLines stack = Except.error (keyErrorMsg "name")
  | [], h => by simp at h
  | d :: ds, h => by
    cases hn : dictLookup d "name" with
    | none => simp [stackLines, stackLine, dictGetItem, hn]
    | some n =>
      have hds : ∃ d2 ∈ ds, dictLookup d2 "name" = none := by
        rcases h with ⟨d2, hm, hl⟩
        rcases List.mem_cons.mp hm with rfl | hm2
        · rw [hn] at hl; cases hl
        · exact ⟨d2, hm2, hl⟩
      have ih := stackLines_missing_name ds hds
      simp [stackLines, stackLine, dictGetItem, hn, ih]

/-- The comprehension succeeds whenever every entry has a name. -/
theorem stackLines_total_of_names :
    ∀ stack : List PyDict,
      (∀ d ∈ stack, (dictLookup d "name").isSome = true) →
      ∃ ls, stackLines stack = Except.ok ls
  | [], _ => ⟨[], rfl⟩
  | d :: ds, h => by
    have hd := h d (List.mem_cons_self d ds)
    have hds := fun d2 hm => h d2 (List.mem_cons_of_mem d hm)
    rcases stackLines_total_of_names ds hds with ⟨ls, hls⟩
    cases hn : dictLookup d "name" with
    | none => rw [hn] at hd; cases hd
    | some n =>
      refine ⟨("- " ++ n ++ ": " ++ dictGet d "dosage" "N/A" ++
        " (" ++ dictGet d "timing" "unspecified" ++ ")") :: ls, ?_⟩
      simp [stackLines, stackLine, dictGetItem, hn, hls]

/-- C1: when every stack entry dict has a name, format_stack returns the
block whose lines are, in input order, the spec rendering of each entry
(hyphen, name, dosage or the literal N/A, timing or the literal
unspecified), and for nonempty, newline-free entries, splitting the block
on newlines yields exactly one such line per entry, in input order. -/
theorem stack_block_lines (stack : List PyDict) (entries : List StackEntry)
    (hread : stack.map entryOfDict = entries.map some)
    (hnl : ∀ e ∈ entries, Char.ofNat 10 ∉ (specStackLine e).data) :
    format_stack stack = Except.ok (pyJoin "\n" (entries.map specStackLine)) ∧
    (entries ≠ [] →
      (pyJoin "\n" (entries.map specStackLine)).data.splitOn (Char.ofNat 10) =
        entries.map (fun e => (specStackLine e).data)) := by
  have hsl := stackLines_of_entries stack entries hread
  constructor
  · simp [format_stack, hsl, Except.map]
  · intro hne
    have hmne : entries.map specStackLine ≠ [] := by simpa using hne
    have h2 := pyJoin_lines (entries.map specStackLine) hmne ?_
    · rw [h2, List.map_map]
      rfl
    · intro s hs
      rcases List.mem_map.mp hs with ⟨e, he, rfl⟩
      exact hnl e he

/-- C1 witness: a two-entry stack, the second entry having neither dosage
nor timing; its line is the verbatim placeholder line. -/
theorem stack_block_lines_witness :
    specStackLine ⟨"Zinc Picolinate", none, none⟩ =
      "- Zinc Picolinate: N/A (unspecified)" ∧
    ([[("name", "Magnesium Glycinate"), ("dosage", "400mg"), ("timing", "evening")],
      [("name", "Zinc Picolinate")]] : List PyDict).map entryOfDict =
      ([⟨"Magnesium Glycinate", some "400mg", some "evening"⟩,
        ⟨"Zinc Picolinate", none, none⟩] : List StackEntry).map some ∧
    (format_stack
        [[("name", "Magnesium Glycinate"), ("dosage", "400mg"), ("timing", "evening")],
         [("name", "Zinc Picolinate")]] =
      Except.ok (pyJoin "\n"
        (([⟨"Magnesium Glycinate", some "400mg", some "evening"⟩,
           ⟨"Zinc Picolinate", none, none⟩] : List StackEntry).map specStackLine)) ∧
     (([⟨"Magnesium Glycinate", some "400mg", some "evening"⟩,
        ⟨"Zinc Picolinate", none, none⟩] : List StackEntry) ≠ [] →
       (pyJoin "\n"
          (([⟨"Magnesium Glycinate", some "400mg", some "evening"⟩,
             ⟨"Zinc Picolinate", none, none⟩] : List StackEntry).map specStackLine)).data.splitOn
           (Char.ofNat 10) =
         ([⟨"Magnesium Glycinate", some "400mg", some "evening"⟩,
           ⟨"Zinc Picolinate", none, none⟩] : List StackEntry).map
           (fun e => (specStackLine e).data))) :=
  ⟨by decide, by decide,
   stack_block_lines
     [[("name", "Magnesium Glycinate"), ("dosage", "400mg"), ("timing", "evening")],
      [("name", "Zinc Picolinate")]]
     [⟨"Magnesium Glycinate", some "400mg", some "evening"⟩,
      ⟨"Zinc Picolinate", none, none⟩]
     (by decide) (by decide)⟩

/-- C2: for a nonempty scores mapping whose rendered lines are
newline-free, the scores block splits on newlines into exactly one line
per mapping entry, in iteration order, each line being key, colon, space,
value, and nothing else. -/
theorem scores_block_lines (scores : PyDict) (hne : scores ≠ [])
    (hnl : ∀ kv ∈ scores, Char.ofNat 10 ∉ (kv.1 ++ ": " ++ kv.2).data) :
    (format_scores scores).data.splitOn (Char.ofNat 10) =
      scores.map (fun kv => (kv.1 ++ ": " ++ kv.2).data) := by
  have hmne : scores.map (fun kv => kv.1 ++ ": " ++ kv.2) ≠ [] := by
    simpa using hne
  have h2 := pyJoin_lines (scores.map (fun kv => kv.1 ++ ": " ++ kv.2)) hmne ?_
  · unfold format_scores
    rw [h2, List.map_map]
    rfl
  · intro s hs
    rcases List.mem_map.mp hs with ⟨kv, hkv, rfl⟩
    exact hnl kv hkv

/-- C2 witness: a two-entry scores mapping yields exactly its two lines in
iteration order. -/
theorem scores_block_lines_witness :
    (([("interaction_severity", "0.2"), ("cumulative_load", "0.4")] : PyDict) ≠ []) ∧
    (format_scores [("interaction_severity", "0.2"), ("cumulative_load", "0.4")]).data.splitOn
        (Char.ofNat 10) =
      ([("interaction_severity", "0.2"), ("cumulative_load", "0.4")] : PyDict).map
        (fun kv => (kv.1 ++ ": " ++ kv.2).data) :=
  ⟨by decide,
   scores_block_lines [("interaction_severity", "0.2"), ("cumulative_load", "0.4")]
     (by decide) (by decide)⟩

/-- C3: every request has exactly two possible outcomes: explain_risk
returns a RiskExplanation and the endpoint answers 200 with that value as
body, or explain_risk raises with message m and the endpoint answers 500
with detail OpenAI API error: followed by m. -/
theorem endpoint_outcomes (stack : List PyDict) (risk_scores : PyDict)
    (api : String → ApiResponse) :
    (∃ r, explain_risk stack risk_scores api = Except.ok r ∧
      api_explain_risk stack risk_scores api = HttpResponse.ok200 r) ∨
    (∃ m, explain_risk stack risk_scores api = Except.error m ∧
      api_explain_risk stack risk_scores api =
        HttpResponse.err500 ("OpenAI API error: " ++ m)) := by
  cases h : explain_risk stack risk_scores api with
  | ok r => exact Or.inl ⟨r, rfl, by simp [api_explain_risk, h]⟩
  | error m => exact Or.inr ⟨m, rfl, by simp [api_explain_risk, h]⟩

/-- C4 counterexample: a stack whose entry lacks the name key makes
format_stack raise a KeyError instead of returning a string, so the
formatters are not free of error paths over all dicts. -/
theorem format_stack_keyerror_cex :
    format_stack [[("dosage", "30mg")]] = Except.error (keyErrorMsg "name") ∧
    ¬∃ s, format_stack [[("dosage", "30mg")]] = Except.ok s := by
  constructor
  · rfl
  · rintro ⟨s, h⟩
    have h0 : format_stack [[("dosage", "30mg")]] =
        Except.error (keyErrorMsg "name") := rfl
    rw [h0] at h
    exact Except.noConfusion h

/-- C4 amended: when every stack entry dict has the required name key, the
formatters are total: format_stack returns a string, a missing dosage or
timing only substituting placeholder text, and format_scores always
returns a string. -/
theorem formatters_total (stack : List PyDict) (scores : PyDict)
    (hnames : ∀ d ∈ stack, (dictLookup d "name").isSome = true) :
    (∃ s, format_stack stack = Except.ok s) ∧
    ∃ t, format_scores scores = t := by
  rcases stackLines_total_of_names stack hnames with ⟨ls, hls⟩
  exact ⟨⟨pyJoin "\n" ls, by simp [format_stack, hls, Except.map]⟩, ⟨_, rfl⟩⟩

/-- C4 witness: a stack whose single entry has a name and no dosage or
timing formats successfully, as does a concrete scores mapping. -/
theorem formatters_total_witness :
    (∀ d ∈ ([[("name", "Calcium")]] : List PyDict),
      (dictLookup d "name").isSome = true) ∧
    ((∃ s, format_stack [[("name", "Calcium")]] = Except.ok s) ∧
     ∃ t, format_scores [("timing_conflicts", "0.8")] = t) :=
  ⟨by decide, formatters_total [[("name", "Calcium")]]
    [("timing_conflicts", "0.8")] (by decide)⟩

/-- C5: the risk_level of every RiskExplanation value is one of exactly
low, moderate, high, critical; the schema admits no other value. -/
theorem risk_level_enum (r : RiskExplanation) :
    r.risk_level = RiskLevel.low ∨ r.risk_level = RiskLevel.moderate ∨
    r.risk_level = RiskLevel.high ∨ r.risk_level = RiskLevel.critical := by
  cases h : r.risk_level <;> simp

/-- C6: on success the endpoint body is exactly the object parsed from the
external reply: every field, confidence_score included, passes through
unchanged, with no clamping and no modification between the external
reply and the HTTP response. -/
theorem success_pass_through (stack : List PyDict) (risk_scores : PyDict)
    (api : String → ApiResponse) (r : RiskExplanation)
    (hok : explain_risk stack risk_scores api = Except.ok r) :
    api_explain_risk stack risk_scores api = HttpResponse.ok200 r ∧
    ∃ prompt, api prompt = ApiResponse.success r := by
  constructor
  · simp [api_explain_risk, hok]
  · cases hf : format_stack stack with
    | error e => simp [explain_risk, explain_risk_traced, hf] at hok
    | ok b =>
      cases ha : api (buildContext b (format_scores risk_scores)) with
      | success p =>
        simp [explain_risk, explain_risk_traced, hf, ha] at hok
        exact ⟨buildContext b (format_scores risk_scores), by rw [ha, hok]⟩
      | failure m => simp [explain_risk, explain_risk_traced, hf, ha] at hok

/-- C6 witness: a successful request whose external reply is the sample
explanation returns exactly that explanation as the 200 body. -/
theorem success_pass_through_witness :
    explain_risk [[("name", "Vitamin D3")]] [("interaction_severity", "0.2")]
        sampleApi = Except.ok sampleExplanation ∧
    (api_explain_risk [[("name", "Vitamin D3")]] [("interaction_severity", "0.2")]
        sampleApi = HttpResponse.ok200 sampleExplanation ∧
     ∃ prompt, sampleApi prompt = ApiResponse.success sampleExplanation) :=
  ⟨rfl, success_pass_through [[("name", "Vitamin D3")]]
    [("interaction_severity", "0.2")] sampleApi sampleExplanation rfl⟩

/-- C7 counterexample: an invocation whose stack entry lacks the name key
raises during prompt construction and performs zero external calls, so not
every invocation performs exactly one call. -/
theorem single_call_cex :
    (explain_risk_traced [[("dosage", "400mg")]] [] sampleApi).2 = 0 ∧
    (explain_risk_traced [[("dosage", "400mg")]] [] sampleApi).2 ≠ 1 := by
  constructor
  · rfl
  · intro h
    rw [show (explain_risk_traced [[("dosage", "400mg")]] [] sampleApi).2 = 0
      from rfl] at h
    cases h

/-- C7 amended: an invocation of explain_risk calls the external API at
most once, and exactly once whenever prompt formatting succeeds, whether
that single call succeeds or fails; it never retries or issues a second
call. -/
theorem single_call (stack : List PyDict) (risk_scores : PyDict)
    (api : String → ApiResponse) :
    (explain_risk_traced stack risk_scores api).2 ≤ 1 ∧
    ∀ b, format_stack stack = Except.ok b →
      (explain_risk_traced stack risk_scores api).2 = 1 := by
  constructor
  · unfold explain_risk_traced
    cases hf : format_stack stack with
    | error e => simp
    | ok b =>
      cases ha : api (buildContext b (format_scores risk_scores)) <;> simp [ha]
  · intro b hb
    unfold explain_risk_traced
    rw [hb]
    cases ha : api (buildContext b (format_scores risk_scores)) <;> simp [ha]

/-- C7 witness: a well-formed invocation performs exactly one external
call. -/
theorem single_call_witness :
    ((explain_risk_traced [[("name", "Calcium")]] [] sampleApi).2 ≤ 1 ∧
     ∀ b, format_stack [[("name", "Calcium")]] = Except.ok b →
       (explain_risk_traced [[("name", "Calcium")]] [] sampleApi).2 = 1) ∧
    (explain_risk_traced [[("name", "Calcium")]] [] sampleApi).2 = 1 :=
  ⟨single_call [[("name", "Calcium")]] [] sampleApi,
   (single_call [[("name", "Calcium")]] [] sampleApi).2
     "- Calcium: N/A (unspecified)" rfl⟩

/-- C8: the client is constructed once, at process start, from the
OPENAI_API_KEY environment variable: construction fails as a startup
error when the credential is absent and succeeds holding the credential
when present. -/
theorem client_startup (env : Env) :
    (os_getenv env "OPENAI_API_KEY" = none →
      client env = Except.error "The api_key client option must be set") ∧
    ∀ k, os_getenv env "OPENAI_API_KEY" = some k →
      client env = Except.ok ⟨k⟩ := by
  constructor
  · intro h
    simp [client, OpenAI_init, h]
  · intro k h
    simp [client, OpenAI_init, h]

/-- C8 witness: an empty environment fails client construction at startup
and an environment holding the credential succeeds. -/
theorem client_startup_witness :
    (os_getenv [] "OPENAI_API_KEY" = none ∧
     client [] = Except.error "The api_key client option must be set") ∧
    (os_getenv [("OPENAI_API_KEY", "sk-test")] "OPENAI_API_KEY" = some "sk-test" ∧
     client [("OPENAI_API_KEY", "sk-test")] = Except.ok ⟨"sk-test"⟩) :=
  ⟨⟨rfl, (client_startup []).1 rfl⟩,
   ⟨rfl, (client_startup [("OPENAI_API_KEY", "sk-test")]).2 "sk-test" rfl⟩⟩

/-- C9: request handling is stateless and deterministic modulo the
external model: the response at any position of a request sequence is
determined by that request alone (its body and its external reply) and is
unaffected by every other request in the sequence. -/
theorem stateless_requests (reqs1 reqs2 : List Request) (i : Nat)
    (h : reqs1[i]? = reqs2[i]?) :
    (handleRequests reqs1)[i]? = (handleRequests reqs2)[i]? := by
  simp only [handleRequests, List.getElem?_map, h]

/-- C9 witness: two sequences that agree on their second request, one
preceded by a failing request and the other by a different request,
produce the same second response. -/
theorem stateless_requests_witness :
    ([sampleReqB, sampleReq][1]? = [sampleReqC, sampleReq][1]?) ∧
    (handleRequests [sampleReqB, sampleReq])[1]? =
      (handleRequests [sampleReqC, sampleReq])[1]? :=
  ⟨rfl, stateless_requests [sampleReqB, sampleReq] [sampleReqC, sampleReq] 1 rfl⟩

/-- C10: when some stack entry lacks the name key, explain_risk raises
the KeyError during prompt construction, performing zero external calls,
and the endpoint still answers 500 with a detail carrying the fixed
OpenAI API error prefix even though no external call occurred. -/
theorem missing_name_keyerror (stack : List PyDict) (risk_scores : PyDict)
    (api : String → ApiResponse)
    (hmiss : ∃ d ∈ stack, dictLookup d "name" = none) :
    explain_risk_traced stack risk_scores api =
      (Except.error (keyErrorMsg "name"), 0) ∧
    api_explain_risk stack risk_scores api =
      HttpResponse.err500 ("OpenAI API error: " ++ keyErrorMsg "name") := by
  have hf : format_stack stack = Except.error (keyErrorMsg "name") := by
    simp [format_stack, stackLines_missing_name stack hmiss, Except.map]
  constructor
  · simp [explain_risk_traced, hf]
  · simp [api_explain_risk, explain_risk, explain_risk_traced, hf]

/-- C10 witness: a stack whose only entry has a dosage but no name yields
zero external calls and a 500 whose detail starts with the prefix. -/
theorem missing_name_keyerror_witness :
    (∃ d ∈ ([[("dosage", "100mg")]] : List PyDict),
      dictLookup d "name" = none) ∧
    (explain_risk_traced [[("dosage", "100mg")]] [("cumulative_load", "0.5")]
        sampleApi = (Except.error (keyErrorMsg "name"), 0) ∧
     api_explain_risk [[("dosage", "100mg")]] [("cumulative_load", "0.5")]
        sampleApi =
       HttpResponse.err500 ("OpenAI API error: " ++ keyErrorMsg "name")) :=
  ⟨by decide, missing_name_keyerror [[("dosage", "100mg")]]
    [("cumulative_load", "0.5")] sampleApi (by decide)⟩

end SuppTracker
